import Mathlib

/-!
Shallow embedding of the booking/wallet settlement core of the cmm_server
repository (Go, gorm/PostgreSQL backed).

Modelling conventions:
* `uuid.UUID` is modelled as `Nat` (0 plays the role of `uuid.Nil`).
* `time.Time` and `float64` money amounts are modelled as `ℚ`; time is
  measured in hours, so Go's `d.Hours()` on the difference of two times is
  plain subtraction and `24*time.Hour` is the literal `24`.
* The relational store is a record of lists of rows; gorm's `First` is
  `List.find?`, gorm's bulk `Update` maps the assignment over every row
  matched by the `Where` clause.
* gorm semantics embedded faithfully: a chained `Update` whose `Where`
  clause matches zero rows still returns a nil `Error` (gorm only reports
  that through `RowsAffected`, which this codebase never inspects), so the
  repository update helpers below cannot fail in the absence of an
  infrastructure fault.
* Infrastructure (database) faults are injected only where a claim needs
  them (`ConfirmTopup`), via explicit boolean fault flags; everywhere else
  the store is assumed healthy, matching the sequential, fault-free reading
  of the code.
-/

/-- Row of the `wallets` table (`entity.Wallet`): 1:1 per user. -/
structure Wallet where
  userID : Nat
  balance : ℚ
deriving DecidableEq, Repr

/-- Row of the `bookings` table (`entity.Booking`). -/
structure Booking where
  id : Nat
  customerID : Nat
  meetingRoomID : Nat
  startTime : ℚ
  endTime : ℚ
  totalPrice : ℚ
  voucherID : Nat
  status : String
  createdAt : ℚ
deriving DecidableEq, Repr

/-- Row of the `vouchers` table (`entity.Voucher`). -/
structure Voucher where
  id : Nat
  code : String
  discountPercent : Int
  maxUses : Int
  usedCount : Int
  validFrom : ℚ
  validTo : ℚ
deriving DecidableEq, Repr

/-- Row of the `transactions` table (`entity.Transaction`). -/
structure Transaction where
  id : Nat
  userID : Nat
  serviceID : Int
  serviceRefID : Nat
  amount : ℚ
  paidAt : ℚ
  status : String
deriving DecidableEq, Repr

/-- Row of the `topups` table (`entity.Topup`). -/
structure Topup where
  id : Nat
  userID : Nat
  amount : ℚ
  method : String
  status : String
  createdAt : ℚ
deriving DecidableEq, Repr

/-- Row of the `meeting_rooms` table (`entity.MeetingRoom`), the fields the
settlement core reads. -/
structure MeetingRoom where
  id : Nat
  name : String
  pricePerHour : ℚ
  available : Bool
deriving DecidableEq, Repr

/-- The backing relational store, restricted to the tables the settlement
core touches. -/
structure Store where
  rooms : List MeetingRoom
  bookings : List Booking
  wallets : List Wallet
  vouchers : List Voucher
  transactions : List Transaction
  topups : List Topup
deriving DecidableEq, Repr

/-- Request body `request.CreateBooking` (meeting room, time range, optional
voucher code; `""` means no voucher, matching Go's zero string). -/
structure CreateBookingReq where
  meetingRoomID : Nat
  startTime : ℚ
  endTime : ℚ
  voucherCode : String
deriving DecidableEq, Repr

/-- Response `response.BookingResponse`, the fields CreateBooking fills. -/
structure BookingResponse where
  id : Nat
  customerID : Nat
  meetingRoomID : Nat
  roomName : String
  startTime : ℚ
  endTime : ℚ
  totalPrice : ℚ
  voucherID : Nat
  status : String
  createdAt : ℚ
deriving DecidableEq, Repr

/-- Response `response.VoucherCalculation` of the standalone ApplyVoucher. -/
structure VoucherCalculation where
  originalAmount : ℚ
  discountAmount : ℚ
  finalAmount : ℚ
  discountPercent : Int
  voucherCode : String
deriving DecidableEq, Repr

instance {ε α : Type} [DecidableEq ε] [DecidableEq α] : DecidableEq (Except ε α) := fun x y =>
  match x, y with
  | Except.ok a, Except.ok b =>
    if h : a = b then isTrue (by rw [h]) else isFalse (by simp [h])
  | Except.error a, Except.error b =>
    if h : a = b then isTrue (by rw [h]) else isFalse (by simp [h])
  | Except.ok _, Except.error _ => isFalse (by simp)
  | Except.error _, Except.ok _ => isFalse (by simp)

/-! ## Repository layer -/

/-- `walletRepo.GetWalletByUserID`: `First` over `user_id = ?`. -/
def getWalletByUserID (s : Store) (uid : Nat) : Option Wallet :=
  s.wallets.find? (fun w => w.userID == uid)

/-- Balance of the user's wallet row as an observer (0 when the row is
absent). -/
def walletBalance (s : Store) (uid : Nat) : ℚ :=
  match getWalletByUserID s uid with
  | some w => w.balance
  | none => 0

/-- Row transformation of `walletRepo.UpdateBalance`:
`UPDATE wallets SET balance = balance + ? WHERE user_id = ?`. -/
def updateBalanceRows (ws : List Wallet) (uid : Nat) (amount : ℚ) : List Wallet :=
  ws.map (fun w => if w.userID = uid then { w with balance := w.balance + amount } else w)

/-- Row transformation of `walletRepo.DeductBalance`:
`UPDATE wallets SET balance = balance - ? WHERE user_id = ? AND balance >= ?`. -/
def deductBalanceRows (ws : List Wallet) (uid : Nat) (amount : ℚ) : List Wallet :=
  ws.map (fun w =>
    if w.userID = uid ∧ amount ≤ w.balance then { w with balance := w.balance - amount } else w)

/-- `walletRepo.DeductBalance` as the caller sees it. gorm returns a nil
`Error` from an `Update` even when the `WHERE` clause matched no row (the
repository never reads `RowsAffected`), so absent an infrastructure fault
this call always reports success, whether or not anything was subtracted. -/
def deductBalance (s : Store) (uid : Nat) (amount : ℚ) : Store × Except String Unit :=
  ({ s with wallets := deductBalanceRows s.wallets uid amount }, Except.ok ())

/-- Row transformation of `voucherRepo.IncrementUsedCount`:
`UPDATE vouchers SET used_count = used_count + 1 WHERE id = ?`. -/
def incrementUsedCountRows (vs : List Voucher) (vid : Nat) : List Voucher :=
  vs.map (fun v => if v.id = vid then { v with usedCount := v.usedCount + 1 } else v)

/-- Row transformation of `bookingRepo.CancelBooking`:
`UPDATE bookings SET status = 'cancelled' WHERE id = ?`. -/
def cancelBookingRows (bs : List Booking) (bid : Nat) : List Booking :=
  bs.map (fun b => if b.id = bid then { b with status := "cancelled" } else b)

/-- Row transformation of `walletRepo.UpdateTopupStatus`:
`UPDATE topups SET status = ? WHERE id = ?`. -/
def updateTopupStatusRows (ts : List Topup) (tid : Nat) (st : String) : List Topup :=
  ts.map (fun t => if t.id = tid then { t with status := st } else t)

/-- The `WHERE` condition of `bookingRepo.CheckRoomAvailability` on a single
booking row against the requested slot `[ns, ne)`:
`(start_time < ne AND end_time > ns) OR (start_time < ns AND end_time > ne)
 OR (start_time >= ns AND end_time <= ne)`. -/
def overlapCond (bs be ns ne : ℚ) : Prop :=
  (bs < ne ∧ ns < be) ∨ (bs < ns ∧ ne < be) ∨ (ns ≤ bs ∧ be ≤ ne)

instance (bs be ns ne : ℚ) : Decidable (overlapCond bs be ns ne) := by
  unfold overlapCond; infer_instance

/-- The spec's reference overlap test: half-open intervals `[a,b)` and
`[c,d)` overlap iff `a < d ∧ c < b`. -/
def specOverlap (a b c d : ℚ) : Prop := a < d ∧ c < b

instance (a b c d : ℚ) : Decidable (specOverlap a b c d) := by
  unfold specOverlap; infer_instance

/-- `bookingRepo.CheckRoomAvailability`: counts non-cancelled bookings of the
room matching `overlapCond` and reports the room free iff the count is 0. -/
def checkRoomAvailability (s : Store) (roomID : Nat) (ns ne : ℚ) : Bool :=
  (s.bookings.countP (fun b =>
    b.meetingRoomID == roomID && b.status != "cancelled" &&
      decide (overlapCond b.startTime b.endTime ns ne))) == 0

/-- `meetingRoomRepo.GetMeetingRoomByID`: `First` over `id = ?`. -/
def getMeetingRoomByID (s : Store) (rid : Nat) : Option MeetingRoom :=
  s.rooms.find? (fun r => r.id == rid)

/-- `voucherRepo.GetVoucherByCode`: `First` over `code = ?`. -/
def getVoucherByCode (s : Store) (code : String) : Option Voucher :=
  s.vouchers.find? (fun v => v.code == code)

/-- `bookingRepo.GetBookingByID`: `First` over `id = ?`. -/
def getBookingByID (s : Store) (bid : Nat) : Option Booking :=
  s.bookings.find? (fun b => b.id == bid)

/-- `walletRepo.GetTopupByID`: `First` over `id = ?`. -/
def getTopupByID (s : Store) (tid : Nat) : Option Topup :=
  s.topups.find? (fun t => t.id == tid)

/-! ## Usecase layer -/

/-- The voucher block of `bookingUsecase.CreateBooking` (lines 88-117):
skipped when no code was supplied; otherwise looks the voucher up, validates
the validity window and the usage budget, applies the percentage discount to
the running total and increments the voucher's `used_count` (best-effort; in
the fault-free model the increment always succeeds). Returns the store (with
the increment applied on success), the discounted total and the applied
voucher's id. -/
def applyVoucherStep (now : ℚ) (s : Store) (totalPrice : ℚ) (code : String) :
    Except String (Store × ℚ × Option Nat) :=
  if code = "" then Except.ok (s, totalPrice, none)
  else
    match getVoucherByCode s code with
    | none => Except.error "invalid voucher code"
    | some voucher =>
      if now < voucher.validFrom ∨ voucher.validTo < now then
        Except.error "voucher is not valid at this time"
      else if voucher.maxUses > 0 ∧ voucher.maxUses ≤ voucher.usedCount then
        Except.error "voucher has reached maximum uses"
      else
        Except.ok
          ({ s with vouchers := incrementUsedCountRows s.vouchers voucher.id },
           totalPrice - totalPrice * (voucher.discountPercent : ℚ) / 100,
           some voucher.id)

/-- `bookingUsecase.CreateBooking`. `now` stands for `time.Now()` (the code
samples the clock several times within the one call; the samples are
collapsed into a single instant), `newBookingID` and `newTxID` for the two
`uuid.New()` calls. Returns the resulting store and either the booking
response or the error string the Go code produces. -/
def createBooking (now : ℚ) (s : Store) (customerID : Nat) (req : CreateBookingReq)
    (newBookingID newTxID : Nat) : Store × Except String BookingResponse :=
  if req.endTime ≤ req.startTime then
    (s, Except.error "end time must be after start time")
  else if req.startTime < now then
    (s, Except.error "cannot book in the past")
  else
    match getMeetingRoomByID s req.meetingRoomID with
    | none => (s, Except.error "meeting room not found")
    | some room =>
      if room.available = false then (s, Except.error "meeting room is not available")
      else if checkRoomAvailability s req.meetingRoomID req.startTime req.endTime = false then
        (s, Except.error "meeting room is already booked for this time slot")
      else
        match applyVoucherStep now s (room.pricePerHour * (req.endTime - req.startTime))
            req.voucherCode with
        | Except.error e => (s, Except.error e)
        | Except.ok (s1, totalPrice, voucherID) =>
          match getWalletByUserID s1 customerID with
          | none => (s1, Except.error "wallet not found")
          | some wallet =>
            if wallet.balance < totalPrice then (s1, Except.error "insufficient balance")
            else
              let booking : Booking :=
                { id := newBookingID, customerID := customerID,
                  meetingRoomID := req.meetingRoomID, startTime := req.startTime,
                  endTime := req.endTime, totalPrice := totalPrice,
                  voucherID := voucherID.getD 0, status := "booked", createdAt := now }
              let s2 := { s1 with bookings := s1.bookings ++ [booking] }
              let s3 := { s2 with wallets := deductBalanceRows s2.wallets customerID totalPrice }
              let tx : Transaction :=
                { id := newTxID, userID := customerID, serviceID := 1,
                  serviceRefID := booking.id, amount := totalPrice, paidAt := now,
                  status := "completed" }
              let s4 := { s3 with transactions := s3.transactions ++ [tx] }
              (s4, Except.ok
                { id := booking.id, customerID := customerID,
                  meetingRoomID := req.meetingRoomID, roomName := room.name,
                  startTime := req.startTime, endTime := req.endTime,
                  totalPrice := totalPrice, voucherID := booking.voucherID,
                  status := "booked", createdAt := now })

/-- `bookingUsecase.CancelBooking`. `time.Until(startTime) < 24*time.Hour`
becomes `booking.startTime - now < 24` with time measured in hours. -/
def cancelBooking (now : ℚ) (s : Store) (customerID bookingID newTxID : Nat) :
    Store × Except String Unit :=
  match getBookingByID s bookingID with
  | none => (s, Except.error "booking not found")
  | some booking =>
    if booking.customerID ≠ customerID then
      (s, Except.error "unauthorized to cancel this booking")
    else if booking.status = "cancelled" then
      (s, Except.error "booking is already cancelled")
    else if booking.startTime - now < 24 then
      (s, Except.error "cannot cancel booking less than 24 hours before start time")
    else
      let s1 := { s with bookings := cancelBookingRows s.bookings bookingID }
      let s2 := { s1 with wallets := updateBalanceRows s1.wallets customerID booking.totalPrice }
      let tx : Transaction :=
        { id := newTxID, userID := customerID, serviceID := 1,
          serviceRefID := booking.id, amount := -booking.totalPrice, paidAt := now,
          status := "refunded" }
      ({ s2 with transactions := s2.transactions ++ [tx] }, Except.ok ())

/-- `voucherUsecase.ApplyVoucher` (standalone): pure calculation, no store
mutation. -/
def applyVoucher (now : ℚ) (s : Store) (code : String) (amount : ℚ) :
    Except String VoucherCalculation :=
  match getVoucherByCode s code with
  | none => Except.error "invalid voucher code"
  | some voucher =>
    if now < voucher.validFrom ∨ voucher.validTo < now then
      Except.error "voucher is not valid at this time"
    else if voucher.maxUses > 0 ∧ voucher.maxUses ≤ voucher.usedCount then
      Except.error "voucher has reached maximum uses"
    else
      let discountAmount := amount * (voucher.discountPercent : ℚ) / 100
      Except.ok
        { originalAmount := amount, discountAmount := discountAmount,
          finalAmount := amount - discountAmount,
          discountPercent := voucher.discountPercent, voucherCode := voucher.code }

/-- Injected infrastructure faults for the repository calls inside
`walletUsecase.ConfirmTopup`: a `true` flag makes the corresponding database
call return an error without touching the store. -/
structure TopupFaults where
  failUpdateTopupStatus : Bool
  failUpdateBalance : Bool
  failCreateTransaction : Bool
deriving DecidableEq, Repr

/-- A healthy database: no injected faults. -/
def noFaults : TopupFaults := ⟨false, false, false⟩

/-- `walletUsecase.ConfirmTopup` (in `di/apifx/initialize.go`): looks the
topup up, requires status `"pending"`, then (1) marks it `"completed"`,
(2) credits the user's wallet with the topup amount, (3) appends a
serviceID=2 transaction. A failure of (3) is only logged: the call still
returns success without the ledger row. -/
def confirmTopup (f : TopupFaults) (now : ℚ) (s : Store) (topupID newTxID : Nat) :
    Store × Except String Unit :=
  match getTopupByID s topupID with
  | none => (s, Except.error "topup not found")
  | some topup =>
    if topup.status ≠ "pending" then (s, Except.error "topup is not pending")
    else if f.failUpdateTopupStatus then (s, Except.error "db error")
    else
      let s1 := { s with topups := updateTopupStatusRows s.topups topupID "completed" }
      if f.failUpdateBalance then (s1, Except.error "failed to update wallet balance")
      else
        let s2 := { s1 with wallets := updateBalanceRows s1.wallets topup.userID topup.amount }
        let tx : Transaction :=
          { id := newTxID, userID := topup.userID, serviceID := 2,
            serviceRefID := topup.id, amount := topup.amount, paidAt := now,
            status := "completed" }
        if f.failCreateTransaction then (s2, Except.ok ())
        else ({ s2 with transactions := s2.transactions ++ [tx] }, Except.ok ())

/-! ## Concrete fixtures (used by witnesses and counterexamples) -/

/-- Room priced at 10.0 per hour, available. -/
def demoRoom : MeetingRoom := { id := 1, name := "Room A", pricePerHour := 10, available := true }

/-- Customer 7's wallet holding 50.0. -/
def demoWallet : Wallet := { userID := 7, balance := 50 }

/-- A 10% voucher with unlimited uses, valid over `[0, 100]`. -/
def demoVoucher10 : Voucher :=
  { id := 3, code := "SAVE10", discountPercent := 10, maxUses := 0, usedCount := 0,
    validFrom := 0, validTo := 100 }

/-- A 20% voucher with unlimited uses, valid over `[0, 100]`. -/
def demoVoucher20 : Voucher :=
  { id := 4, code := "SAVE20", discountPercent := 20, maxUses := 0, usedCount := 0,
    validFrom := 0, validTo := 100 }

/-- Store for the spec's end-to-end scenario. -/
def demoStore : Store :=
  { rooms := [demoRoom], bookings := [], wallets := [demoWallet],
    vouchers := [demoVoucher10, demoVoucher20], transactions := [], topups := [] }

/-- Scenario booking request: room 1 for 2 hours with the 10% voucher. -/
def demoReq : CreateBookingReq :=
  { meetingRoomID := 1, startTime := 33, endTime := 35, voucherCode := "SAVE10" }

/-- Same request without a voucher code. -/
def demoReqNV : CreateBookingReq :=
  { meetingRoomID := 1, startTime := 33, endTime := 35, voucherCode := "" }

/-- Store whose only wallet holds 5.0: too little for the scenario booking. -/
def lowBalanceStore : Store :=
  { rooms := [demoRoom], bookings := [], wallets := [{ userID := 7, balance := 5 }],
    vouchers := [demoVoucher10, demoVoucher20], transactions := [], topups := [] }

/-- Store with no rows at all. -/
def emptyStore : Store :=
  { rooms := [], bookings := [], wallets := [], vouchers := [], transactions := [],
    topups := [] }

/-- A pending 25.0 topup for user 7. -/
def demoTopup : Topup :=
  { id := 11, userID := 7, amount := 25, method := "bank", status := "pending", createdAt := 0 }

/-- Store holding user 7's wallet and the pending topup. -/
def topupStore : Store :=
  { rooms := [], bookings := [], wallets := [demoWallet], vouchers := [],
    transactions := [], topups := [demoTopup] }

/-! ## Helper lemmas -/

/-- `find?` commutes with mapping a row transformation that does not change
the searched key. -/
theorem find?_map_eq {α : Type} (f : α → α) (p : α → Bool) (hp : ∀ a, p (f a) = p a) :
    ∀ l : List α, (l.map f).find? p = (l.find? p).map f := by
  intro l
  induction l with
  | nil => rfl
  | cons a l ih =>
    simp only [List.map_cons, List.find?]
    rw [hp a]
    cases h : p a
    · exact ih
    · rfl

/-- Looking a wallet up after `DeductBalance` finds the old row with the
conditional subtraction applied. -/
theorem find?_deductBalanceRows (ws : List Wallet) (uid : Nat) (amt : ℚ) :
    (deductBalanceRows ws uid amt).find? (fun w => w.userID == uid) =
      (ws.find? (fun w => w.userID == uid)).map
        (fun w => if w.userID = uid ∧ amt ≤ w.balance
                  then { w with balance := w.balance - amt } else w) := by
  apply find?_map_eq
  intro w
  by_cases h : w.userID = uid ∧ amt ≤ w.balance <;> simp [h]

/-- Looking a wallet up after `UpdateBalance` finds the old row with the
unconditional addition applied. -/
theorem find?_updateBalanceRows (ws : List Wallet) (uid : Nat) (amt : ℚ) :
    (updateBalanceRows ws uid amt).find? (fun w => w.userID == uid) =
      (ws.find? (fun w => w.userID == uid)).map
        (fun w => if w.userID = uid then { w with balance := w.balance + amt } else w) := by
  apply find?_map_eq
  intro w
  by_cases h : w.userID = uid <;> simp [h]

/-- Looking a topup up after `UpdateTopupStatus` finds the old row with the
status assignment applied. -/
theorem find?_updateTopupStatusRows (ts : List Topup) (tid : Nat) (st : String) :
    (updateTopupStatusRows ts tid st).find? (fun t => t.id == tid) =
      (ts.find? (fun t => t.id == tid)).map
        (fun t => if t.id = tid then { t with status := st } else t) := by
  apply find?_map_eq
  intro t
  by_cases h : t.id = tid <;> simp [h]

/-- Inversion of a successful voucher step: either no code was supplied and
nothing happened, or the voucher found by code determined the discount and
had its usage counter incremented. -/
theorem applyVoucherStep_ok_price {now : ℚ} {s : Store} {tp : ℚ} {code : String}
    {s1 : Store} {p : ℚ} {vid : Option Nat}
    (h : applyVoucherStep now s tp code = Except.ok (s1, p, vid)) :
    (code = "" ∧ s1 = s ∧ p = tp ∧ vid = none) ∨
    (code ≠ "" ∧ ∃ v, getVoucherByCode s code = some v ∧
      s1 = { s with vouchers := incrementUsedCountRows s.vouchers v.id } ∧
      p = tp - tp * (v.discountPercent : ℚ) / 100 ∧ vid = some v.id) := by
  unfold applyVoucherStep at h
  split at h
  · rename_i hcode
    simp only [Except.ok.injEq, Prod.mk.injEq] at h
    obtain ⟨rfl, rfl, rfl⟩ := h
    exact Or.inl ⟨hcode, rfl, rfl, rfl⟩
  · rename_i hcode
    split at h
    · exact Except.noConfusion h
    · rename_i v hv
      split at h
      · exact Except.noConfusion h
      · split at h
        · exact Except.noConfusion h
        · simp only [Except.ok.injEq, Prod.mk.injEq] at h
          obtain ⟨rfl, rfl, rfl⟩ := h
          exact Or.inr ⟨hcode, v, hv, rfl, rfl, rfl⟩

/-- The voucher step only ever touches the `vouchers` table. -/
theorem applyVoucherStep_ok_fields {now : ℚ} {s : Store} {tp : ℚ} {code : String}
    {s1 : Store} {p : ℚ} {vid : Option Nat}
    (h : applyVoucherStep now s tp code = Except.ok (s1, p, vid)) :
    s1.rooms = s.rooms ∧ s1.bookings = s.bookings ∧ s1.wallets = s.wallets ∧
    s1.transactions = s.transactions ∧ s1.topups = s.topups := by
  rcases applyVoucherStep_ok_price h with ⟨-, rfl, -, -⟩ | ⟨-, v, -, rfl, -, -⟩ <;>
    exact ⟨rfl, rfl, rfl, rfl, rfl⟩

/-- The booking row `bookingUsecase.CreateBooking` persists (source lines
129-141). -/
def mkBookingRow (bid cid : Nat) (req : CreateBookingReq) (price : ℚ)
    (vid : Option Nat) (now : ℚ) : Booking :=
  { id := bid, customerID := cid, meetingRoomID := req.meetingRoomID,
    startTime := req.startTime, endTime := req.endTime, totalPrice := price,
    voucherID := vid.getD 0, status := "booked", createdAt := now }

/-- The settlement ledger row `bookingUsecase.CreateBooking` appends (source
lines 154-162). -/
def mkBookingTx (tid cid bid : Nat) (price now : ℚ) : Transaction :=
  { id := tid, userID := cid, serviceID := 1, serviceRefID := bid, amount := price,
    paidAt := now, status := "completed" }

/-- The refund ledger row `bookingUsecase.CancelBooking` appends (source
lines 277-285). -/
def mkRefundTx (tid cid bid : Nat) (price now : ℚ) : Transaction :=
  { id := tid, userID := cid, serviceID := 1, serviceRefID := bid, amount := -price,
    paidAt := now, status := "refunded" }

/-- The ledger row `walletUsecase.ConfirmTopup` appends. -/
def mkTopupTx (txid : Nat) (t : Topup) (now : ℚ) : Transaction :=
  { id := txid, userID := t.userID, serviceID := 2, serviceRefID := t.id,
    amount := t.amount, paidAt := now, status := "completed" }

/-- Inversion of a successful `CreateBooking`: the validations passed, the
room was found available, the slot was free, the voucher step produced the
final price, the wallet covered it, and the resulting store is the original
plus the new booking row, the conditional debit, the voucher-step effect and
the appended settlement transaction. -/
theorem createBooking_ok_inv {now : ℚ} {s : Store} {cid : Nat} {req : CreateBookingReq}
    {bid tid : Nat} {s' : Store} {resp : BookingResponse}
    (h : createBooking now s cid req bid tid = (s', Except.ok resp)) :
    ∃ room s1 price vid w,
      req.startTime < req.endTime ∧ now ≤ req.startTime ∧
      getMeetingRoomByID s req.meetingRoomID = some room ∧ room.available = true ∧
      checkRoomAvailability s req.meetingRoomID req.startTime req.endTime = true ∧
      applyVoucherStep now s (room.pricePerHour * (req.endTime - req.startTime)) req.voucherCode
        = Except.ok (s1, price, vid) ∧
      getWalletByUserID s cid = some w ∧ price ≤ w.balance ∧
      resp = { id := bid, customerID := cid, meetingRoomID := req.meetingRoomID,
               roomName := room.name, startTime := req.startTime, endTime := req.endTime,
               totalPrice := price, voucherID := vid.getD 0, status := "booked",
               createdAt := now } ∧
      s' = { rooms := s.rooms,
             bookings := s.bookings ++ [mkBookingRow bid cid req price vid now],
             wallets := deductBalanceRows s.wallets cid price,
             vouchers := s1.vouchers,
             transactions := s.transactions ++ [mkBookingTx tid cid bid price now],
             topups := s.topups } := by
  unfold createBooking at h
  split at h
  · exact Except.noConfusion (congrArg Prod.snd h)
  · rename_i hts
    split at h
    · exact Except.noConfusion (congrArg Prod.snd h)
    · rename_i hpast
      split at h
      · exact Except.noConfusion (congrArg Prod.snd h)
      · rename_i room hroom
        split at h
        · exact Except.noConfusion (congrArg Prod.snd h)
        · rename_i havail
          split at h
          · exact Except.noConfusion (congrArg Prod.snd h)
          · rename_i hfree
            split at h
            · exact Except.noConfusion (congrArg Prod.snd h)
            · rename_i s1 price vid hvs
              split at h
              · exact Except.noConfusion (congrArg Prod.snd h)
              · rename_i w hw
                split at h
                · exact Except.noConfusion (congrArg Prod.snd h)
                · rename_i hbal
                  obtain ⟨hf1, hf2, hf3, hf4, hf5⟩ := applyVoucherStep_ok_fields hvs
                  simp only [Prod.mk.injEq, Except.ok.injEq] at h
                  obtain ⟨rfl, rfl⟩ := h
                  simp only [Bool.not_eq_false] at havail hfree
                  refine ⟨room, s1, price, vid, w, not_le.mp hts, not_lt.mp hpast, hroom,
                    havail, hfree, hvs, ?_, not_lt.mp hbal, rfl, ?_⟩
                  · rw [← hw]
                    unfold getWalletByUserID
                    rw [hf3]
                  · simp [Store.mk.injEq, mkBookingRow, mkBookingTx, hf1, hf2, hf3, hf4, hf5]

/-- Inversion of a failed `CreateBooking`: no booking row is written, the
wallet and the ledger are untouched, and the store is fully unchanged except
that a failure at the wallet step (absent wallet or insufficient balance)
with a voucher code supplied has already incremented that voucher's usage
counter. -/
theorem createBooking_err_inv {now : ℚ} {s : Store} {cid : Nat} {req : CreateBookingReq}
    {bid tid : Nat} {s' : Store} {e : String}
    (h : createBooking now s cid req bid tid = (s', Except.error e)) :
    s'.rooms = s.rooms ∧ s'.bookings = s.bookings ∧ s'.wallets = s.wallets ∧
    s'.transactions = s.transactions ∧ s'.topups = s.topups ∧
    (req.voucherCode = "" → s' = s) ∧
    (s'.vouchers = s.vouchers ∨
      ((e = "wallet not found" ∨ e = "insufficient balance") ∧ req.voucherCode ≠ "" ∧
        ∃ v, getVoucherByCode s req.voucherCode = some v ∧
          s'.vouchers = incrementUsedCountRows s.vouchers v.id)) := by
  unfold createBooking at h
  split at h
  · obtain ⟨rfl, -⟩ := Prod.mk.injEq .. ▸ h
    exact ⟨rfl, rfl, rfl, rfl, rfl, fun _ => rfl, Or.inl rfl⟩
  · split at h
    · obtain ⟨rfl, -⟩ := Prod.mk.injEq .. ▸ h
      exact ⟨rfl, rfl, rfl, rfl, rfl, fun _ => rfl, Or.inl rfl⟩
    · split at h
      · obtain ⟨rfl, -⟩ := Prod.mk.injEq .. ▸ h
        exact ⟨rfl, rfl, rfl, rfl, rfl, fun _ => rfl, Or.inl rfl⟩
      · split at h
        · obtain ⟨rfl, -⟩ := Prod.mk.injEq .. ▸ h
          exact ⟨rfl, rfl, rfl, rfl, rfl, fun _ => rfl, Or.inl rfl⟩
        · split at h
          · obtain ⟨rfl, -⟩ := Prod.mk.injEq .. ▸ h
            exact ⟨rfl, rfl, rfl, rfl, rfl, fun _ => rfl, Or.inl rfl⟩
          · split at h
            · obtain ⟨rfl, -⟩ := Prod.mk.injEq .. ▸ h
              exact ⟨rfl, rfl, rfl, rfl, rfl, fun _ => rfl, Or.inl rfl⟩
            · rename_i s1 price vid hvs
              split at h
              · rename_i hwnone
                simp only [Prod.mk.injEq, Except.error.injEq] at h
                obtain ⟨rfl, rfl⟩ := h
                rcases applyVoucherStep_ok_price hvs with ⟨hc, rfl, -, -⟩ |
                    ⟨hc, v, hv, rfl, -, -⟩
                · exact ⟨rfl, rfl, rfl, rfl, rfl, fun _ => rfl, Or.inl rfl⟩
                · exact ⟨rfl, rfl, rfl, rfl, rfl, fun hc0 => absurd hc0 hc,
                    Or.inr ⟨Or.inl rfl, hc, v, hv, rfl⟩⟩
              · rename_i w hw
                split at h
                · simp only [Prod.mk.injEq, Except.error.injEq] at h
                  obtain ⟨rfl, rfl⟩ := h
                  rcases applyVoucherStep_ok_price hvs with ⟨hc, rfl, -, -⟩ |
                      ⟨hc, v, hv, rfl, -, -⟩
                  · exact ⟨rfl, rfl, rfl, rfl, rfl, fun _ => rfl, Or.inl rfl⟩
                  · exact ⟨rfl, rfl, rfl, rfl, rfl, fun hc0 => absurd hc0 hc,
                      Or.inr ⟨Or.inr rfl, hc, v, hv, rfl⟩⟩
                · exact Except.noConfusion (congrArg Prod.snd h)

/-- Inversion of a successful `CancelBooking`: the booking was found, owned
by the caller, not yet cancelled and at least 24 hours away; the resulting
store has its status set to cancelled, the refund credited and the refund
transaction appended. -/
theorem cancelBooking_ok_inv {now : ℚ} {s : Store} {cid bkid tid : Nat} {s' : Store}
    (h : cancelBooking now s cid bkid tid = (s', Except.ok ())) :
    ∃ b, getBookingByID s bkid = some b ∧ b.customerID = cid ∧ b.status ≠ "cancelled" ∧
      24 ≤ b.startTime - now ∧
      s' = { rooms := s.rooms,
             bookings := cancelBookingRows s.bookings bkid,
             wallets := updateBalanceRows s.wallets cid b.totalPrice,
             vouchers := s.vouchers,
             transactions := s.transactions ++ [mkRefundTx tid cid b.id b.totalPrice now],
             topups := s.topups } := by
  unfold cancelBooking at h
  split at h
  · exact Except.noConfusion (congrArg Prod.snd h)
  · rename_i b hb
    split at h
    · exact Except.noConfusion (congrArg Prod.snd h)
    · rename_i hown
      split at h
      · exact Except.noConfusion (congrArg Prod.snd h)
      · rename_i hst
        split at h
        · exact Except.noConfusion (congrArg Prod.snd h)
        · rename_i hlate
          simp only [Prod.mk.injEq] at h
          obtain ⟨rfl, -⟩ := h
          exact ⟨b, hb, not_not.mp hown, hst, not_lt.mp hlate, by simp [mkRefundTx]⟩

/-! ## Claim theorems -/

/-- Booking on room 1 over `[1, 2)`, used to exercise the availability query
on a degenerate requested interval. -/
def degBooking : Booking :=
  { id := 21, customerID := 7, meetingRoomID := 1, startTime := 1, endTime := 2,
    totalPrice := 10, voucherID := 0, status := "booked", createdAt := 0 }

/-- Store holding only `degBooking`. -/
def degStore : Store :=
  { rooms := [demoRoom], bookings := [degBooking], wallets := [], vouchers := [],
    transactions := [], topups := [] }

/-- C4 counterexample: the claim's equivalence is quantified over all time
intervals, but on the degenerate requested interval `[3, 0)` against the
existing interval `[1, 2)` the query's three-disjunct condition holds (via
its second disjunct) while the spec's reference test `a < d ∧ c < b` fails,
and `CheckRoomAvailability` consequently reports a conflict although no
stored booking spec-overlaps the request. -/
theorem overlapCond_not_specOverlap_degenerate :
    overlapCond 1 2 3 0 ∧ ¬ specOverlap 1 2 3 0 ∧
    checkRoomAvailability degStore 1 3 0 = false ∧
    ¬ ∃ b ∈ degStore.bookings, b.meetingRoomID = 1 ∧ b.status ≠ "cancelled" ∧
        specOverlap b.startTime b.endTime 3 0 := by
  decide

/-- C4 (amended): for proper intervals — the requested interval satisfies
`ns < ne` and every stored booking satisfies `start < end` — the availability
query's three-disjunct condition is equivalent to the spec's reference
overlap test, and `CheckRoomAvailability` reports a conflict exactly when
some non-cancelled booking on the room spec-overlaps the request. -/
theorem checkRoomAvailability_overlap_equiv (s : Store) (roomID : Nat) (ns ne : ℚ)
    (hreq : ns < ne) (hbk : ∀ b ∈ s.bookings, b.startTime < b.endTime) :
    (∀ bs be : ℚ, bs < be → (overlapCond bs be ns ne ↔ specOverlap bs be ns ne)) ∧
    (checkRoomAvailability s roomID ns ne = false ↔
      ∃ b ∈ s.bookings, b.meetingRoomID = roomID ∧ b.status ≠ "cancelled" ∧
        specOverlap b.startTime b.endTime ns ne) := by
  have key : ∀ bs be : ℚ, bs < be → (overlapCond bs be ns ne ↔ specOverlap bs be ns ne) := by
    intro bs be hb
    unfold overlapCond specOverlap
    constructor
    · rintro (h | h | h)
      · exact h
      · exact ⟨h.1.trans hreq, hreq.trans h.2⟩
      · exact ⟨hb.trans_le h.2, h.1.trans_lt hb⟩
    · exact Or.inl
  refine ⟨key, ?_⟩
  unfold checkRoomAvailability
  rw [show ∀ n : Nat, ((n == 0) = false ↔ ¬ n = 0) from fun n => by simp]
  rw [show ∀ (l : List Booking) (p : Booking → Bool), (¬ l.countP p = 0 ↔ ∃ b ∈ l, p b) from
    fun l p => by rw [List.countP_eq_zero]; push_neg; simp]
  constructor
  · rintro ⟨b, hmem, hp⟩
    simp only [Bool.and_eq_true, beq_iff_eq, bne_iff_ne, decide_eq_true_eq] at hp
    exact ⟨b, hmem, hp.1.1, hp.1.2, (key _ _ (hbk b hmem)).mp hp.2⟩
  · rintro ⟨b, hmem, h1, h2, h3⟩
    refine ⟨b, hmem, ?_⟩
    simp only [Bool.and_eq_true, beq_iff_eq, bne_iff_ne, decide_eq_true_eq]
    exact ⟨⟨h1, h2⟩, (key _ _ (hbk b hmem)).mpr h3⟩

/-- Witness for the amended C4 theorem at a concrete store and interval. -/
theorem checkRoomAvailability_overlap_equiv_witness :
    (0:ℚ) < 1 ∧
    (checkRoomAvailability demoStore 1 0 1 = false ↔
      ∃ b ∈ demoStore.bookings, b.meetingRoomID = 1 ∧ b.status ≠ "cancelled" ∧
        specOverlap b.startTime b.endTime 0 1) :=
  ⟨by norm_num,
   (checkRoomAvailability_overlap_equiv demoStore 1 0 1 (by norm_num)
      (by intro b hb; simp [demoStore] at hb)).2⟩

/-- C9 counterexample: an input violating both time validations (endTime ≤
startTime and startTime in the past) fails with InvalidTimeRange, not with
PastBooking, because the checks run in order and the first failure wins; the
claim's second conjunct quantified over every input is therefore false. -/
theorem createBooking_both_violations_invalid_time_range :
    ((5:ℚ) < 10) ∧
    (createBooking 10 demoStore 7
        { meetingRoomID := 1, startTime := 5, endTime := 3, voucherCode := "" } 100 101).2
      = Except.error "end time must be after start time" ∧
    (createBooking 10 demoStore 7
        { meetingRoomID := 1, startTime := 5, endTime := 3, voucherCode := "" } 100 101).2
      ≠ Except.error "cannot book in the past" := by
  refine ⟨by norm_num, rfl, by decide⟩

/-- C9 (amended): CreateBooking with endTime ≤ startTime fails with
InvalidTimeRange; when the range is valid (startTime < endTime), a startTime
strictly before now fails with PastBooking. Both conclusions hold for every
store, return the store unchanged, and do not depend on its contents: the
rejection happens before any store access. -/
theorem createBooking_validation_first_wins (now : ℚ) (s : Store) (cid : Nat)
    (req : CreateBookingReq) (bid tid : Nat) :
    (req.endTime ≤ req.startTime →
      createBooking now s cid req bid tid
        = (s, Except.error "end time must be after start time")) ∧
    (req.startTime < req.endTime → req.startTime < now →
      createBooking now s cid req bid tid
        = (s, Except.error "cannot book in the past")) := by
  constructor
  · intro hle
    unfold createBooking
    rw [if_pos hle]
  · intro hlt hpast
    unfold createBooking
    rw [if_neg (not_le.mpr hlt), if_pos hpast]

/-- Witness for the amended C9 theorem on concrete in-the-past input. -/
theorem createBooking_validation_first_wins_witness :
    createBooking 10 demoStore 7
        { meetingRoomID := 1, startTime := 5, endTime := 8, voucherCode := "" } 100 101
      = (demoStore, Except.error "cannot book in the past") :=
  (createBooking_validation_first_wins 10 demoStore 7
    { meetingRoomID := 1, startTime := 5, endTime := 8, voucherCode := "" } 100 101).2
    (by norm_num) (by norm_num)

/-- C3 (code bug): `DeductBalance` issues a conditional UPDATE but gorm
reports a nil error when the WHERE clause matches no row and the code never
reads `RowsAffected`, so when the balance is below the amount (store
`lowBalanceStore`, balance 5 < amount 10) or the wallet row is absent
(`emptyStore`) the call subtracts nothing yet still signals success — the
failure signal the claim (and spec §4.4) describes does not exist, and
CreateBooking's PaymentFailed branch is unreachable without an
infrastructure fault. -/
theorem deductBalance_no_failure_signal :
    deductBalance lowBalanceStore 7 10 = (lowBalanceStore, Except.ok ()) ∧
    deductBalance emptyStore 7 10 = (emptyStore, Except.ok ()) ∧
    walletBalance lowBalanceStore 7 = 5 ∧ (5:ℚ) < 10 := by
  refine ⟨by decide, rfl, rfl, by norm_num⟩

/-- C8: price and discount computation. (1) A successful voucher step either
leaves the price at the base price (no code) or produces
`basePrice − basePrice·discountPercent/100` for the voucher found by code;
(2) a successful CreateBooking without a voucher charges exactly
`pricePerHour · (endTime − startTime)`; (3) the spec's end-to-end scenario:
room at 10.0/hr for 2 hours with the 10% voucher yields final price 18.0 and
a wallet of 50.0 ends at 32.0; (4) standalone ApplyVoucher with a 20%
voucher on amount 100.0 yields discount 20.0 and final amount 80.0. -/
theorem price_discount_computation :
    (∀ (now : ℚ) (s : Store) (tp : ℚ) (code : String) (s1 : Store) (p : ℚ)
        (vid : Option Nat),
      applyVoucherStep now s tp code = Except.ok (s1, p, vid) →
      (code = "" ∧ p = tp) ∨
        ∃ v, getVoucherByCode s code = some v ∧
          p = tp - tp * (v.discountPercent : ℚ) / 100) ∧
    (∀ (now : ℚ) (s : Store) (cid : Nat) (req : CreateBookingReq) (bid tid : Nat)
        (s' : Store) (resp : BookingResponse) (room : MeetingRoom),
      req.voucherCode = "" →
      getMeetingRoomByID s req.meetingRoomID = some room →
      createBooking now s cid req bid tid = (s', Except.ok resp) →
      resp.totalPrice = room.pricePerHour * (req.endTime - req.startTime)) ∧
    ((createBooking 30 demoStore 7 demoReq 100 101).2 = Except.ok
        { id := 100, customerID := 7, meetingRoomID := 1, roomName := "Room A",
          startTime := 33, endTime := 35, totalPrice := 18, voucherID := 3,
          status := "booked", createdAt := 30 } ∧
      walletBalance (createBooking 30 demoStore 7 demoReq 100 101).1 7 = 32) ∧
    applyVoucher 30 demoStore "SAVE20" 100 = Except.ok
      { originalAmount := 100, discountAmount := 20, finalAmount := 80,
        discountPercent := 20, voucherCode := "SAVE20" } := by
  refine ⟨?_, ?_, ⟨?_, ?_⟩, ?_⟩
  case refine_3 =>
    norm_num [createBooking, demoStore, demoReq, demoRoom, demoWallet, demoVoucher10,
      demoVoucher20, getMeetingRoomByID, getVoucherByCode, getWalletByUserID,
      applyVoucherStep, checkRoomAvailability, deductBalanceRows, incrementUsedCountRows,
      List.find?, show ("SAVE10" = "") = False from by simp,
      show (("SAVE10" : String) == "SAVE20") = false from by decide,
      show (("SAVE10" : String) == "SAVE10") = true from by decide]
  case refine_4 =>
    norm_num [createBooking, demoStore, demoReq, demoRoom, demoWallet, demoVoucher10,
      demoVoucher20, getMeetingRoomByID, getVoucherByCode, getWalletByUserID,
      applyVoucherStep, checkRoomAvailability, deductBalanceRows, incrementUsedCountRows,
      walletBalance, List.find?, show ("SAVE10" = "") = False from by simp,
      show (("SAVE10" : String) == "SAVE20") = false from by decide,
      show (("SAVE10" : String) == "SAVE10") = true from by decide]
  case refine_5 =>
    norm_num [applyVoucher, demoStore, demoVoucher10, demoVoucher20, getVoucherByCode,
      List.find?, show (("SAVE10" : String) == "SAVE20") = false from by decide,
      show (("SAVE20" : String) == "SAVE20") = true from by decide]
  · intro now s tp code s1 p vid h
    rcases applyVoucherStep_ok_price h with ⟨hc, -, rfl, -⟩ | ⟨-, v, hv, -, rfl, -⟩
    · exact Or.inl ⟨hc, rfl⟩
    · exact Or.inr ⟨v, hv, rfl⟩
  · intro now s cid req bid tid s' resp room hcode hroom h
    obtain ⟨room', s1, price, vid, w, -, -, hroom', -, -, hvs, -, -, hresp, -⟩ :=
      createBooking_ok_inv h
    rw [hroom] at hroom'
    obtain rfl : room = room' := Option.some.inj hroom'
    rcases applyVoucherStep_ok_price hvs with ⟨-, -, rfl, -⟩ | ⟨hc, -⟩
    · rw [hresp]
    · exact absurd hcode hc

/-- Witness for C8: the no-voucher clause applied to the concrete scenario
request (2 hours at 10.0/hr gives 20.0). -/
theorem price_discount_computation_witness :
    (20:ℚ) = demoRoom.pricePerHour * (demoReqNV.endTime - demoReqNV.startTime) :=
  price_discount_computation.2.1 30 demoStore 7 demoReqNV 100 101
    (createBooking 30 demoStore 7 demoReqNV 100 101).1
    { id := 100, customerID := 7, meetingRoomID := 1, roomName := "Room A",
      startTime := 33, endTime := 35, totalPrice := 20, voucherID := 0,
      status := "booked", createdAt := 30 } demoRoom rfl (by decide)
    (Prod.ext rfl (by
      norm_num [createBooking, demoStore, demoReqNV, demoRoom, demoWallet,
        getMeetingRoomByID, getWalletByUserID, applyVoucherStep, checkRoomAvailability,
        List.find?]))

/-- C5: a successful CreateBooking with final price P decreases the
customer's wallet balance by exactly P and appends exactly one Transaction
with serviceID=1, amount=P, status "completed" and serviceRefID the new
booking's id. -/
theorem createBooking_settlement {now : ℚ} {s : Store} {cid : Nat} {req : CreateBookingReq}
    {bid tid : Nat} {s' : Store} {resp : BookingResponse}
    (h : createBooking now s cid req bid tid = (s', Except.ok resp)) :
    walletBalance s' cid = walletBalance s cid - resp.totalPrice ∧
    s'.transactions = s.transactions ++ [mkBookingTx tid cid resp.id resp.totalPrice now] := by
  obtain ⟨room, s1, price, vid, w, -, -, -, -, -, -, hw, hbal, hresp, hs'⟩ :=
    createBooking_ok_inv h
  subst hresp
  subst hs'
  simp only [getWalletByUserID] at hw
  have huid : w.userID = cid := by simpa using List.find?_some hw
  constructor
  · unfold walletBalance getWalletByUserID
    simp only [find?_deductBalanceRows, hw, Option.map_some']
    simp [huid, hbal]
  · rfl

/-- Witness for C5 at the concrete no-voucher scenario: balance drops by the
charged 20.0 and the serviceID=1 ledger row is appended. -/
theorem createBooking_settlement_witness :
    walletBalance (createBooking 30 demoStore 7 demoReqNV 100 101).1 7
        = walletBalance demoStore 7 - (20:ℚ) ∧
    (createBooking 30 demoStore 7 demoReqNV 100 101).1.transactions
        = demoStore.transactions ++ [mkBookingTx 101 7 100 20 30] :=
  createBooking_settlement (Prod.ext rfl (by
    norm_num [createBooking, demoStore, demoReqNV, demoRoom, demoWallet,
      getMeetingRoomByID, getWalletByUserID, applyVoucherStep, checkRoomAvailability,
      List.find?] :
    (createBooking 30 demoStore 7 demoReqNV 100 101).2 = Except.ok
      { id := 100, customerID := 7, meetingRoomID := 1, roomName := "Room A",
        startTime := 33, endTime := 35, totalPrice := 20, voucherID := 0,
        status := "booked", createdAt := 30 }))

/-- C2 counterexample: a CreateBooking that fails its wallet-balance
precondition (InsufficientBalance) after a valid voucher code was supplied
has already incremented the voucher's usedCount — the store did change. -/
theorem createBooking_insufficient_balance_mutates_voucher :
    (createBooking 30 lowBalanceStore 7 demoReq 100 101).2
      = Except.error "insufficient balance" ∧
    (createBooking 30 lowBalanceStore 7 demoReq 100 101).1.vouchers
      ≠ lowBalanceStore.vouchers ∧
    (createBooking 30 lowBalanceStore 7 demoReq 100 101).1.vouchers
      = incrementUsedCountRows lowBalanceStore.vouchers 3 := by
  refine ⟨?_, ?_, ?_⟩ <;>
    norm_num [createBooking, lowBalanceStore, demoReq, demoRoom, demoVoucher10,
      demoVoucher20, getMeetingRoomByID, getVoucherByCode, getWalletByUserID,
      applyVoucherStep, checkRoomAvailability, incrementUsedCountRows, List.find?,
      show ("SAVE10" = "") = False from by simp,
      show (("SAVE10" : String) == "SAVE20") = false from by decide,
      show (("SAVE10" : String) == "SAVE10") = true from by decide]

/-- C2 (amended): a failed CreateBooking persists no booking, changes no
wallet balance and appends no transaction; a failure with no voucher code
leaves the store fully unchanged; but a failure at the wallet step (wallet
absent or insufficient balance) with a voucher code supplied leaves that
voucher's usedCount already incremented. -/
theorem createBooking_failure_effects {now : ℚ} {s : Store} {cid : Nat}
    {req : CreateBookingReq} {bid tid : Nat} {s' : Store} {e : String}
    (h : createBooking now s cid req bid tid = (s', Except.error e)) :
    s'.bookings = s.bookings ∧ s'.wallets = s.wallets ∧
    s'.transactions = s.transactions ∧
    (req.voucherCode = "" → s' = s) ∧
    (s'.vouchers = s.vouchers ∨
      ((e = "wallet not found" ∨ e = "insufficient balance") ∧ req.voucherCode ≠ "" ∧
        ∃ v, getVoucherByCode s req.voucherCode = some v ∧
          s'.vouchers = incrementUsedCountRows s.vouchers v.id)) := by
  obtain ⟨-, h2, h3, h4, -, h6, h7⟩ := createBooking_err_inv h
  exact ⟨h2, h3, h4, h6, h7⟩

/-- Witness for the amended C2 theorem at the concrete InsufficientBalance
failure. -/
theorem createBooking_failure_effects_witness :
    (createBooking 30 lowBalanceStore 7 demoReq 100 101).1.bookings
        = lowBalanceStore.bookings ∧
    (createBooking 30 lowBalanceStore 7 demoReq 100 101).1.wallets
        = lowBalanceStore.wallets ∧
    (createBooking 30 lowBalanceStore 7 demoReq 100 101).1.transactions
        = lowBalanceStore.transactions := by
  have h := createBooking_failure_effects (Prod.ext rfl (by
    norm_num [createBooking, lowBalanceStore, demoReq, demoRoom, demoVoucher10,
      demoVoucher20, getMeetingRoomByID, getVoucherByCode, getWalletByUserID,
      applyVoucherStep, checkRoomAvailability, incrementUsedCountRows, List.find?,
      show ("SAVE10" = "") = False from by simp,
      show (("SAVE10" : String) == "SAVE20") = false from by decide,
      show (("SAVE10" : String) == "SAVE10") = true from by decide] :
    (createBooking 30 lowBalanceStore 7 demoReq 100 101).2
      = Except.error "insufficient balance"))
  exact ⟨h.1, h.2.1, h.2.2.1⟩

/-- C6: CancelBooking's full specification. The preconditions are checked in
the code's order — absence gives BookingNotFound, ownership mismatch gives
Unauthorized, an already-cancelled booking gives AlreadyCancelled, and less
than 24 hours of lead time gives TooLateToCancel (so exactly 24 hours
succeeds, the comparison being strict) — and on success the booking's status
is set to cancelled, the customer's wallet balance grows by exactly
totalPrice and a serviceID=1 Transaction with amount −totalPrice and status
"refunded" is appended. -/
theorem cancelBooking_spec (now : ℚ) (s : Store) (cid bkid tid : Nat) :
    (getBookingByID s bkid = none →
      cancelBooking now s cid bkid tid = (s, Except.error "booking not found")) ∧
    (∀ b, getBookingByID s bkid = some b →
      (b.customerID ≠ cid →
        cancelBooking now s cid bkid tid
          = (s, Except.error "unauthorized to cancel this booking")) ∧
      (b.customerID = cid → b.status = "cancelled" →
        cancelBooking now s cid bkid tid
          = (s, Except.error "booking is already cancelled")) ∧
      (b.customerID = cid → b.status ≠ "cancelled" → b.startTime - now < 24 →
        cancelBooking now s cid bkid tid
          = (s, Except.error "cannot cancel booking less than 24 hours before start time")) ∧
      (b.customerID = cid → b.status ≠ "cancelled" → 24 ≤ b.startTime - now →
        ∃ s', cancelBooking now s cid bkid tid = (s', Except.ok ()) ∧
          s'.bookings = cancelBookingRows s.bookings bkid ∧
          ((getWalletByUserID s cid).isSome →
            walletBalance s' cid = walletBalance s cid + b.totalPrice) ∧
          s'.transactions = s.transactions ++ [mkRefundTx tid cid b.id b.totalPrice now])) := by
  constructor
  · intro hnone
    unfold cancelBooking
    rw [hnone]
  · intro b hb
    refine ⟨?_, ?_, ?_, ?_⟩
    · intro hne
      unfold cancelBooking
      rw [hb]
      dsimp only
      rw [if_pos hne]
    · intro heq hst
      unfold cancelBooking
      rw [hb]
      dsimp only
      rw [if_neg (by simp [heq]), if_pos hst]
    · intro heq hst hlate
      unfold cancelBooking
      rw [hb]
      dsimp only
      rw [if_neg (by simp [heq]), if_neg hst, if_pos hlate]
    · intro heq hst hok
      unfold cancelBooking
      rw [hb]
      dsimp only
      rw [if_neg (by simp [heq]), if_neg hst, if_neg (not_lt.mpr hok)]
      refine ⟨_, rfl, rfl, ?_, rfl⟩
      intro hsome
      obtain ⟨w, hw⟩ := Option.isSome_iff_exists.mp hsome
      simp only [getWalletByUserID] at hw
      have huid : w.userID = cid := by simpa using List.find?_some hw
      unfold walletBalance getWalletByUserID
      simp only [find?_updateBalanceRows, hw, Option.map_some']
      simp [huid]

/-- Booking of customer 7 on room 1 starting exactly 24 hours from `now = 0`. -/
def bookedRow : Booking :=
  { id := 31, customerID := 7, meetingRoomID := 1, startTime := 24, endTime := 26,
    totalPrice := 20, voucherID := 0, status := "booked", createdAt := 0 }

/-- Store holding `bookedRow` and customer 7's wallet. -/
def cancelStore : Store :=
  { rooms := [demoRoom], bookings := [bookedRow], wallets := [demoWallet],
    vouchers := [], transactions := [], topups := [] }

/-- Witness for C6: the success branch at the exact 24-hour boundary. -/
theorem cancelBooking_spec_witness :
    ∃ s', cancelBooking 0 cancelStore 7 31 102 = (s', Except.ok ()) ∧
      s'.bookings = cancelBookingRows cancelStore.bookings 31 ∧
      ((getWalletByUserID cancelStore 7).isSome →
        walletBalance s' 7 = walletBalance cancelStore 7 + bookedRow.totalPrice) ∧
      s'.transactions = cancelStore.transactions
          ++ [mkRefundTx 102 7 bookedRow.id bookedRow.totalPrice 0] :=
  ((cancelBooking_spec 0 cancelStore 7 31 102).2 bookedRow rfl).2.2.2 rfl (by decide)
    (by norm_num [bookedRow])

/-- After `UpdateTopupStatus`, looking the topup up by id finds the old row
with the new status. -/
theorem getTopup_update (ts : List Topup) (tid : Nat) (st : String) (t : Topup)
    (h : ts.find? (fun x => x.id == tid) = some t) :
    (updateTopupStatusRows ts tid st).find? (fun x => x.id == tid)
      = some { t with status := st } := by
  rw [find?_updateTopupStatusRows, h]
  have hid : t.id = tid := by simpa using List.find?_some h
  simp [hid]

/-- `ConfirmTopup` on a topup whose status is not `"pending"` fails with
NotPending and leaves the store untouched, whatever the faults. -/
theorem confirmTopup_on_completed (f : TopupFaults) (now : ℚ) (s : Store)
    (tid txid : Nat) (t : Topup) (h : getTopupByID s tid = some t)
    (hst : t.status ≠ "pending") :
    confirmTopup f now s tid txid = (s, Except.error "topup is not pending") := by
  unfold confirmTopup
  rw [h]
  dsimp only
  rw [if_pos hst]

/-- C7: ConfirmTopup transitions pending → completed at most once. A pending
topup is completed exactly once — the wallet is credited by the amount, the
serviceID=2 transaction is appended — and every further ConfirmTopup on it
fails with NotPending leaving the store unchanged; a non-pending topup fails
with NotPending with the store unchanged; and the only change the operation
can ever make to the topups table is setting the target's status to
"completed" (no reverse transition exists). -/
theorem confirmTopup_idempotent_safe (now : ℚ) (s : Store) (tid txid : Nat) :
    (∀ t, getTopupByID s tid = some t → t.status = "pending" →
      ∃ s', confirmTopup noFaults now s tid txid = (s', Except.ok ()) ∧
        s'.topups = updateTopupStatusRows s.topups tid "completed" ∧
        ((getWalletByUserID s t.userID).isSome →
          walletBalance s' t.userID = walletBalance s t.userID + t.amount) ∧
        s'.transactions = s.transactions ++ [mkTopupTx txid t now] ∧
        (∀ f2 now2 txid2, confirmTopup f2 now2 s' tid txid2
            = (s', Except.error "topup is not pending"))) ∧
    (∀ t, getTopupByID s tid = some t → t.status ≠ "pending" →
      ∀ f, confirmTopup f now s tid txid = (s, Except.error "topup is not pending")) ∧
    (∀ f, (confirmTopup f now s tid txid).1.topups = s.topups ∨
      (confirmTopup f now s tid txid).1.topups
        = updateTopupStatusRows s.topups tid "completed") := by
  refine ⟨?_, ?_, ?_⟩
  · intro t ht hp
    unfold confirmTopup
    rw [ht]
    dsimp only
    rw [if_neg (by simp [hp])]
    simp only [noFaults, Bool.false_eq_true, if_false]
    refine ⟨_, rfl, rfl, ?_, rfl, ?_⟩
    · intro hsome
      obtain ⟨w, hw⟩ := Option.isSome_iff_exists.mp hsome
      simp only [getWalletByUserID] at hw
      have huid : w.userID = t.userID := by simpa using List.find?_some hw
      unfold walletBalance getWalletByUserID
      simp only [find?_updateBalanceRows, hw, Option.map_some']
      simp [huid]
    · intro f2 now2 txid2
      apply confirmTopup_on_completed
      · simp only [getTopupByID] at ht ⊢
        exact getTopup_update s.topups tid "completed" t ht
      · simp
  · intro t ht hnp f
    exact confirmTopup_on_completed f now s tid txid t ht hnp
  · intro f
    unfold confirmTopup
    cases hgt : getTopupByID s tid with
    | none => exact Or.inl rfl
    | some t =>
      dsimp only
      split
      · exact Or.inl rfl
      · split
        · exact Or.inl rfl
        · split
          · exact Or.inr rfl
          · split
            · exact Or.inr rfl
            · exact Or.inr rfl

/-- Witness for C7: the pending topup in `topupStore` confirms once,
crediting 25.0, and the second call fails with NotPending. -/
theorem confirmTopup_idempotent_safe_witness :
    ∃ s', confirmTopup noFaults 1 topupStore 11 103 = (s', Except.ok ()) ∧
      s'.topups = updateTopupStatusRows topupStore.topups 11 "completed" ∧
      ((getWalletByUserID topupStore demoTopup.userID).isSome →
        walletBalance s' demoTopup.userID
          = walletBalance topupStore demoTopup.userID + demoTopup.amount) ∧
      s'.transactions = topupStore.transactions ++ [mkTopupTx 103 demoTopup 1] ∧
      (∀ f2 now2 txid2, confirmTopup f2 now2 s' 11 txid2
          = (s', Except.error "topup is not pending")) :=
  (confirmTopup_idempotent_safe 1 topupStore 11 103).1 demoTopup rfl rfl

/-- C10: ConfirmTopup marks the topup completed before crediting the wallet;
when the credit call fails, the call errors but the topup is left
"completed", the wallet is never credited, no transaction is appended, and
every subsequent ConfirmTopup on that topup fails with NotPending — the
credit is unrecoverable. -/
theorem confirmTopup_partial_failure_unrecoverable (now : ℚ) (s : Store)
    (tid txid : Nat) (t : Topup) (f : TopupFaults) (hfind : getTopupByID s tid = some t)
    (hpend : t.status = "pending") (hf1 : f.failUpdateTopupStatus = false)
    (hf2 : f.failUpdateBalance = true) :
    ∃ s', confirmTopup f now s tid txid
        = (s', Except.error "failed to update wallet balance") ∧
      s'.topups = updateTopupStatusRows s.topups tid "completed" ∧
      s'.wallets = s.wallets ∧ s'.transactions = s.transactions ∧
      (∀ f2 now2 txid2, confirmTopup f2 now2 s' tid txid2
          = (s', Except.error "topup is not pending")) := by
  unfold confirmTopup
  rw [hfind]
  dsimp only
  rw [if_neg (by simp [hpend]), hf1, hf2]
  simp only [Bool.false_eq_true, if_false, if_true]
  refine ⟨_, rfl, rfl, rfl, rfl, ?_⟩
  intro f2 now2 txid2
  apply confirmTopup_on_completed
  · simp only [getTopupByID] at hfind ⊢
    exact getTopup_update s.topups tid "completed" t hfind
  · simp

/-- Witness for C10 with the concrete pending topup and an injected credit
fault. -/
theorem confirmTopup_partial_failure_unrecoverable_witness :
    ∃ s', confirmTopup ⟨false, true, false⟩ 1 topupStore 11 103
        = (s', Except.error "failed to update wallet balance") ∧
      s'.topups = updateTopupStatusRows topupStore.topups 11 "completed" ∧
      s'.wallets = topupStore.wallets ∧ s'.transactions = topupStore.transactions ∧
      (∀ f2 now2 txid2, confirmTopup f2 now2 s' 11 txid2
          = (s', Except.error "topup is not pending")) :=
  confirmTopup_partial_failure_unrecoverable 1 topupStore 11 103 demoTopup
    ⟨false, true, false⟩ rfl rfl rfl rfl

/-- The no-double-booking property over a bookings table: any two distinct
non-cancelled bookings on the same room have non-overlapping half-open
intervals (per the spec's reference overlap test). -/
def NoDoubleBooking (bs : List Booking) : Prop :=
  bs.Pairwise (fun b1 b2 => b1.meetingRoomID = b2.meetingRoomID →
    b1.status ≠ "cancelled" → b2.status ≠ "cancelled" →
    ¬ specOverlap b1.startTime b1.endTime b2.startTime b2.endTime)

/-- Stores reachable from any bookings-empty store by sequences of
successful CreateBooking and CancelBooking operations. -/
inductive Reachable : Store → Prop where
  | init (s : Store) : s.bookings = [] → Reachable s
  | create (s s' : Store) (now : ℚ) (cid : Nat) (req : CreateBookingReq)
      (bid tid : Nat) (resp : BookingResponse) : Reachable s →
      createBooking now s cid req bid tid = (s', Except.ok resp) → Reachable s'
  | cancel (s s' : Store) (now : ℚ) (cid bkid tid : Nat) : Reachable s →
      cancelBooking now s cid bkid tid = (s', Except.ok ()) → Reachable s'

/-- C1: in every state reachable by successful CreateBooking and
CancelBooking operations, no two distinct non-cancelled bookings on the same
room overlap: CreateBooking inserts only after the availability query found
no conflicting row (and the query's condition subsumes the reference overlap
test), and CancelBooking only moves statuses to "cancelled". -/
theorem booking_no_double_booking (s : Store) (h : Reachable s) :
    NoDoubleBooking s.bookings := by
  induction h with
  | init s hs =>
    unfold NoDoubleBooking
    rw [hs]
    exact List.Pairwise.nil
  | create s s' now cid req bid tid resp hr hcb ih =>
    obtain ⟨room, s1, price, vid, w, -, -, -, -, hfree, -, -, -, -, hs'⟩ :=
      createBooking_ok_inv hcb
    subst hs'
    show NoDoubleBooking (s.bookings ++ [mkBookingRow bid cid req price vid now])
    unfold NoDoubleBooking at ih ⊢
    rw [List.pairwise_append]
    refine ⟨ih, List.pairwise_singleton _ _, ?_⟩
    intro a ha b hb hroom hst1 hst2
    simp only [List.mem_singleton] at hb
    subst hb
    unfold checkRoomAvailability at hfree
    have h0 : ∀ x ∈ s.bookings,
        ¬ ((x.meetingRoomID == req.meetingRoomID && x.status != "cancelled" &&
          decide (overlapCond x.startTime x.endTime req.startTime req.endTime)) = true) := by
      rw [← List.countP_eq_zero]
      simpa using hfree
    intro hov
    apply h0 a ha
    simp only [Bool.and_eq_true, beq_iff_eq, bne_iff_ne, decide_eq_true_eq]
    refine ⟨⟨by simpa [mkBookingRow] using hroom, hst1⟩, Or.inl ?_⟩
    simpa [mkBookingRow, specOverlap] using hov
  | cancel s s' now cid bkid tid hr hcc ih =>
    obtain ⟨b, -, -, -, -, hs'⟩ := cancelBooking_ok_inv hcc
    subst hs'
    show NoDoubleBooking (cancelBookingRows s.bookings bkid)
    unfold NoDoubleBooking at ih ⊢
    unfold cancelBookingRows
    refine List.Pairwise.map _ ?_ ih
    intro x y hxy hroom hst1 hst2
    by_cases hx : x.id = bkid
    · simp [hx] at hst1
    · by_cases hy : y.id = bkid
      · simp [hy] at hst2
      · simp only [if_neg hx, if_neg hy] at hroom hst1 hst2 ⊢
        exact hxy hroom hst1 hst2

/-- Witness for C1: a bookings-empty store is reachable and satisfies the
invariant. -/
theorem booking_no_double_booking_witness : NoDoubleBooking demoStore.bookings :=
  booking_no_double_booking demoStore (Reachable.init demoStore rfl)
